import Mathlib

/-!
# Breakout analyzer — verified model

Shallow embedding of the analytical core of `breakout_analyzer.py`:

* `fetch_and_prepare_data` — the post-fetch enrichment of the raw series
  (20-day rolling average volume, daily percent change);
* `identify_breakout_days` — the boolean-mask selection of breakout days;
* `calculate_holding_returns` — the holding-period forward-return annotation.

Prices and volumes are modelled as rationals (`ℚ`); a pandas `NaN` cell is
modelled as `none` of an `Option ℚ` column.  Pandas comparisons against `NaN`
are false, which the embedding renders as an explicit `Option` match that
yields `false` on `none`.

The raw DataFrame has been through `reset_index`, so its row labels coincide
with positional indices `0 .. len-1`.  Filtering with a boolean mask keeps the
original labels; the embedding therefore carries each selected row together
with its original index (`List.enum`).  Label-based lookups (`data.loc[i]`)
become positional lookups.
-/

namespace BreakoutAnalyzer

/-- One raw daily observation, as fetched: date, closing price, volume.
Dates are modelled as integers (ordinal day numbers). -/
structure Observation where
  date : ℤ
  close : ℚ
  volume : ℚ
deriving DecidableEq, Repr, Inhabited

/-- One row of the prepared DataFrame: the raw columns plus the two derived
columns added by `fetch_and_prepare_data`.  A `none` models a `NaN` cell
(the Python column `20d_avg_volume` is named `avg_volume_20d` here, since a
Lean name cannot start with a digit). -/
structure EnrichedRow where
  date : ℤ
  close : ℚ
  volume : ℚ
  avg_volume_20d : Option ℚ
  daily_pct_change : Option ℚ
deriving DecidableEq, Repr, Inhabited

/-- The rolling mean of the Volume column, `rolling(window=20).mean()`, at
row `t`: `NaN` for the first 19 rows (`min_periods` defaults to the window
size), otherwise the arithmetic mean of the 20 volumes ending at row `t`. -/
def rollingMeanVolume (sd : List Observation) (t : ℕ) : Option ℚ :=
  if 19 ≤ t then
    some (((((sd.drop (t - 19)).take 20).map Observation.volume).sum) / 20)
  else none

/-- The `pct_change() * 100` of the Close column at row `t`:
`NaN` for the first row, otherwise `(close[t] / close[t-1] - 1) * 100`
(pandas computes `pct_change` as `self / self.shift(1) - 1`). -/
def pctChange (sd : List Observation) (t : ℕ) : Option ℚ :=
  if 1 ≤ t then
    some (((sd.getD t default).close / (sd.getD (t - 1) default).close - 1) * 100)
  else none

/-- The pure tail of `fetch_and_prepare_data`: given the fetched,
`reset_index`-ed series, add the `20d_avg_volume` and `daily_pct_change`
columns.  (The fetch itself and the `st.error` path are external I/O.) -/
def fetch_and_prepare_data (sd : List Observation) : List EnrichedRow :=
  (List.range sd.length).map fun t =>
    let o := sd.getD t default
    { date := o.date
      close := o.close
      volume := o.volume
      avg_volume_20d := rollingMeanVolume sd t
      daily_pct_change := pctChange sd t }

/-- A breakout-days DataFrame: the selected rows, each carrying its original
row label (= original positional index), plus the `holding_return` column,
which is absent (`none`) until `calculate_holding_returns` attaches it. -/
structure BreakoutFrame where
  rows : List (ℕ × EnrichedRow)
  holding_return_col : Option (List (Option ℚ))
deriving DecidableEq, Repr

/-- The boolean mask of `identify_breakout_days` at one row:
`(Volume > (volume_threshold / 100) * 20d_avg_volume) & (daily_pct_change >
price_change_threshold)`.  A `NaN` in either derived column makes its
comparison false (pandas semantics). -/
def breakout_row (volume_threshold price_change_threshold : ℚ)
    (row : EnrichedRow) : Bool :=
  (match row.avg_volume_20d with
   | some a => decide (volume_threshold / 100 * a < row.volume)
   | none => false)
  &&
  (match row.daily_pct_change with
   | some d => decide (price_change_threshold < d)
   | none => false)

/-- `identify_breakout_days(data, volume_threshold, price_change_threshold)`.
Boolean-mask selection copies: it does not write to `data`, and the selected
frame keeps the original labels and order.  The first component is the state
of the `data` argument after the call (unchanged — the function performs no
assignment to it); the second is the returned breakout frame. -/
def identify_breakout_days (data : List EnrichedRow)
    (volume_threshold price_change_threshold : ℚ) :
    List EnrichedRow × BreakoutFrame :=
  (data,
   { rows := data.enum.filter fun p =>
       breakout_row volume_threshold price_change_threshold p.2
     holding_return_col := none })

/-- `calculate_holding_returns(data, breakout_days, holding_period)`.
For each breakout row, `breakout_index = row.name` (its original label);
if `breakout_index + holding_period < len(data)` the return is
the Close at the exit index minus the Close of the row, over the Close of
the row, times 100; else `None`.  The final `.loc` column assignment of
`returns` then writes the `holding_return` column into the very frame object
passed as the argument, and the
function returns that same object.  The first component is the state of the
`data` argument after the call (unchanged — never written); the second is
both the post-call state of the `breakout_days` argument and the returned
value (one and the same mutated object).  `holding_period` comes from a
Streamlit integer input with `min_value=1, step=1` and is modelled as `ℕ`. -/
def calculate_holding_returns (data : List EnrichedRow)
    (breakout_days : BreakoutFrame) (holding_period : ℕ) :
    List EnrichedRow × BreakoutFrame :=
  let returns : List (Option ℚ) := breakout_days.rows.map fun p =>
    if p.1 + holding_period < data.length then
      some (((data.getD (p.1 + holding_period) default).close - p.2.close)
              / p.2.close * 100)
    else none
  (data, { rows := breakout_days.rows, holding_return_col := some returns })

/-! ## Helper lemmas -/

/-- The boolean mask holds at a row exactly when both derived columns are
present and both strict inequalities hold. -/
lemma breakout_row_iff (vth pth : ℚ) (row : EnrichedRow) :
    breakout_row vth pth row = true ↔
      (∃ a, row.avg_volume_20d = some a ∧ vth / 100 * a < row.volume) ∧
      (∃ d, row.daily_pct_change = some d ∧ pth < d) := by
  unfold breakout_row
  rcases row with ⟨date, close, volume, avg, pct⟩
  cases avg <;> cases pct <;> simp

/-- Indexing into the prepared series: row `t` is built from observation `t`
and the two derived columns at `t`. -/
lemma fetch_getElem? (sd : List Observation) (t : ℕ) (h : t < sd.length) :
    (fetch_and_prepare_data sd)[t]? =
      some { date := (sd.getD t default).date
             close := (sd.getD t default).close
             volume := (sd.getD t default).volume
             avg_volume_20d := rollingMeanVolume sd t
             daily_pct_change := pctChange sd t } := by
  unfold fetch_and_prepare_data
  simp [List.getElem?_map, List.getElem?_range, h]

/-- The prepared series has the same length as the raw series. -/
lemma fetch_length (sd : List Observation) :
    (fetch_and_prepare_data sd).length = sd.length := by
  unfold fetch_and_prepare_data
  simp

/-- A contiguous window of a list, re-expressed as indexed lookups. -/
lemma take_drop_eq_range_getD (l : List Observation) (s m : ℕ)
    (h : s + m ≤ l.length) :
    (l.drop s).take m = (List.range m).map fun k => l.getD (s + k) default := by
  apply List.ext_getElem?
  intro i
  rw [List.getElem?_take, List.getElem?_map, List.getElem?_drop]
  by_cases hi : i < m
  · have hlt : s + i < l.length := by omega
    rw [if_pos hi, List.getElem?_range hi, List.getElem?_eq_getElem hlt]
    simp [List.getD_eq_getElem?_getD, List.getElem?_eq_getElem hlt]
  · rw [if_neg hi, List.getElem?_eq_none (by simpa using Nat.le_of_not_lt hi)]
    rfl

/-- Membership in the selection of the classifier, characterized: the row is the
series entry at its carried index and both mask conjuncts hold. -/
lemma mem_breakout_rows (data : List EnrichedRow) (vth pth : ℚ) (t : ℕ)
    (row : EnrichedRow) :
    (t, row) ∈ (identify_breakout_days data vth pth).2.rows ↔
      data[t]? = some row ∧
      (∃ a, row.avg_volume_20d = some a ∧ vth / 100 * a < row.volume) ∧
      (∃ d, row.daily_pct_change = some d ∧ pth < d) := by
  show (t, row) ∈ data.enum.filter (fun p => breakout_row vth pth p.2) ↔ _
  rw [List.mem_filter, List.mem_enum_iff_getElem?, breakout_row_iff]

/-! ## Concrete sample values used by witnesses and counterexamples -/

/-- A small, already-enriched series: three rows with closes 10, 11, 12. -/
def sampleData : List EnrichedRow :=
  [⟨0, 10, 50, some 10, some 5⟩,
   ⟨1, 11, 60, some 10, some 10⟩,
   ⟨2, 12, 30, none, some 9⟩]

/-- A breakout frame whose rows genuinely agree with `sampleData` at their
carried indices 0 and 2 (`holding_return` column not yet attached). -/
def sampleFrame : BreakoutFrame :=
  { rows := [(0, ⟨0, 10, 50, some 10, some 5⟩), (2, ⟨2, 12, 30, none, some 9⟩)]
    holding_return_col := none }

/-- A raw 20-day series: volume 10 and close 1 on days 0–18, then a spike
(volume 100, close 2) on day 19. -/
def sampleObs : List Observation :=
  [⟨0, 1, 10⟩, ⟨1, 1, 10⟩, ⟨2, 1, 10⟩, ⟨3, 1, 10⟩, ⟨4, 1, 10⟩,
   ⟨5, 1, 10⟩, ⟨6, 1, 10⟩, ⟨7, 1, 10⟩, ⟨8, 1, 10⟩, ⟨9, 1, 10⟩,
   ⟨10, 1, 10⟩, ⟨11, 1, 10⟩, ⟨12, 1, 10⟩, ⟨13, 1, 10⟩, ⟨14, 1, 10⟩,
   ⟨15, 1, 10⟩, ⟨16, 1, 10⟩, ⟨17, 1, 10⟩, ⟨18, 1, 10⟩, ⟨19, 2, 100⟩]

/-- A two-day raw series with closes 10 then 12. -/
def sampleObs2 : List Observation := [⟨0, 10, 5⟩, ⟨1, 12, 7⟩]

/-! ## Claim theorems -/

/-- C2: for every enriched series and pair of thresholds, the classifier
selects exactly the pairs `(t, row)` where `row` is the series entry at `t`,
`volume_threshold / 100 * rolling_avg_volume[t] < volume[t]`, and
`price_change_threshold < daily_pct_change[t]` (both strict, both columns
present), and the selection is a sublist of the indexed series — original
order and original indices are preserved. -/
theorem C2_classifier_exact_selection (data : List EnrichedRow) (vth pth : ℚ) :
    ((identify_breakout_days data vth pth).2.rows).Sublist data.enum ∧
    ∀ t row,
      (t, row) ∈ (identify_breakout_days data vth pth).2.rows ↔
        data[t]? = some row ∧
        (∃ a, row.avg_volume_20d = some a ∧ vth / 100 * a < row.volume) ∧
        (∃ d, row.daily_pct_change = some d ∧ pth < d) := by
  exact ⟨List.filter_sublist _, fun t row => mem_breakout_rows data vth pth t row⟩

/-- C6: with the series and volume threshold fixed, strictly raising the
price-change threshold can only shrink the breakout subset. -/
theorem C6_price_threshold_monotone (data : List EnrichedRow) (vth p1 p2 : ℚ)
    (h : p1 < p2) :
    (identify_breakout_days data vth p2).2.rows ⊆
      (identify_breakout_days data vth p1).2.rows := by
  intro p hp
  have hm := List.mem_filter.mp hp
  refine List.mem_filter.mpr ⟨hm.1, ?_⟩
  rw [breakout_row_iff] at hm ⊢
  obtain ⟨hvol, d, hd, hgt⟩ := hm.2
  exact ⟨hvol, d, hd, lt_trans h hgt⟩

/-- C6 witness: at a concrete one-row series with thresholds 0 < 1, the
subset inclusion holds. -/
theorem C6_price_threshold_monotone_witness :
    (0 : ℚ) < 1 ∧
    (identify_breakout_days sampleData 200 1).2.rows ⊆
      (identify_breakout_days sampleData 200 0).2.rows :=
  ⟨by norm_num, C6_price_threshold_monotone sampleData 200 0 1 (by norm_num)⟩

/-- C8: the empty input series flows through the whole pipeline without
failure: empty enriched series, empty breakout subset, empty result. -/
theorem C8_empty_series (vth pth : ℚ) (hp : ℕ) :
    fetch_and_prepare_data [] = [] ∧
    (identify_breakout_days (fetch_and_prepare_data []) vth pth).2.rows = [] ∧
    (calculate_holding_returns (fetch_and_prepare_data [])
        (identify_breakout_days (fetch_and_prepare_data []) vth pth).2
        hp).2.rows = [] ∧
    (calculate_holding_returns (fetch_and_prepare_data [])
        (identify_breakout_days (fetch_and_prepare_data []) vth pth).2
        hp).2.holding_return_col = some [] :=
  ⟨rfl, rfl, rfl, rfl⟩

/-- C9 counterexample: the breakout-subset value passed to
`calculate_holding_returns` is NOT unchanged after the call — the
`holding_return` column has been written into the argument frame in place
(the in-place `.loc` column assignment of `returns`), so its post-call state
differs from the value passed in. -/
theorem C9_counterexample :
    (calculate_holding_returns sampleData sampleFrame 1).2 ≠ sampleFrame := by
  intro hcontra
  have := congrArg BreakoutFrame.holding_return_col hcontra
  simp [calculate_holding_returns, sampleFrame] at this

/-- C9 amended: the classifier leaves the series unchanged, and the measurer
leaves the series unchanged and preserves every pre-existing breakout row;
but the measurer mutates its breakout-subset argument in place by attaching
the `holding_return` column.  Re-running the measurer on the mutated frame
reproduces exactly the same frame, so stages remain safely re-runnable. -/
theorem C9_amended_stage_effects (data : List EnrichedRow) (b : BreakoutFrame)
    (vth pth : ℚ) (hp : ℕ) :
    (identify_breakout_days data vth pth).1 = data ∧
    (calculate_holding_returns data b hp).1 = data ∧
    (calculate_holding_returns data b hp).2.rows = b.rows ∧
    (calculate_holding_returns data
        ((calculate_holding_returns data b hp).2) hp).2 =
      (calculate_holding_returns data b hp).2 :=
  ⟨rfl, rfl, rfl, rfl⟩

/-- C10: the measurer leaves the full series untouched and leaves every
pre-existing field of every breakout row — date, close, volume,
rolling-average volume, daily percent change, and the carried original
index — exactly as in the input subset; the only column it introduces is
`holding_return`. -/
theorem C10_measure_preserves_fields (data : List EnrichedRow)
    (b : BreakoutFrame) (hp : ℕ) :
    (calculate_holding_returns data b hp).1 = data ∧
    (calculate_holding_returns data b hp).2.rows = b.rows ∧
    ∃ col, (calculate_holding_returns data b hp).2 =
      { rows := b.rows, holding_return_col := some col } :=
  ⟨rfl, rfl, _, rfl⟩

/-- C5: the classifier never selects a row whose rolling-average volume or
daily percent change is undefined (such a row fails the mask, it does not
raise); in particular, on any enriched series the selected original indices
are all ≥ 19 — which excludes both the first 19 rows (undefined rolling
average) and row 0 (undefined percent change). -/
theorem C5_never_selects_undefined :
    (∀ (data : List EnrichedRow) (vth pth : ℚ),
        ∀ p ∈ (identify_breakout_days data vth pth).2.rows,
          p.2.avg_volume_20d ≠ none ∧ p.2.daily_pct_change ≠ none) ∧
    (∀ (sd : List Observation) (vth pth : ℚ),
        ∀ p ∈ (identify_breakout_days (fetch_and_prepare_data sd) vth pth).2.rows,
          19 ≤ p.1) := by
  have hfields : ∀ (data : List EnrichedRow) (vth pth : ℚ),
      ∀ p ∈ (identify_breakout_days data vth pth).2.rows,
        p.2.avg_volume_20d ≠ none ∧ p.2.daily_pct_change ≠ none := by
    intro data vth pth p hp
    have h := (List.mem_filter.mp hp).2
    rw [breakout_row_iff] at h
    obtain ⟨⟨a, ha, _⟩, ⟨d, hd, _⟩⟩ := h
    exact ⟨by simp [ha], by simp [hd]⟩
  refine ⟨hfields, ?_⟩
  intro sd vth pth p hp
  have hmem := (List.mem_filter.mp hp).1
  have hget : (fetch_and_prepare_data sd)[p.1]? = some p.2 :=
    List.mem_enum_iff_getElem?.mp hmem
  have hlt : p.1 < sd.length := by
    by_contra hge
    rw [List.getElem?_eq_none (by rw [fetch_length]; omega)] at hget
    exact Option.noConfusion hget
  have hrow := fetch_getElem? sd p.1 hlt
  rw [hrow] at hget
  have h2 : p.2.avg_volume_20d = rollingMeanVolume sd p.1 := by
    have heq := Option.some.inj hget
    rw [← heq]
  have hdef := (hfields _ vth pth p hp).1
  rw [h2] at hdef
  by_contra hlt19
  exact hdef (by simp [rollingMeanVolume, hlt19])

/-- C5 witness: concrete selected rows with both derived columns defined,
including a genuine breakout at index 19 of a 20-day raw series. -/
theorem C5_never_selects_undefined_witness :
    ((0, (⟨0, 10, 50, some 10, some 5⟩ : EnrichedRow)) ∈
        (identify_breakout_days sampleData 100 0).2.rows ∧
      ((0, (⟨0, 10, 50, some 10, some 5⟩ : EnrichedRow)).2.avg_volume_20d ≠ none ∧
       (0, (⟨0, 10, 50, some 10, some 5⟩ : EnrichedRow)).2.daily_pct_change ≠ none)) ∧
    ((19, (⟨19, 2, 100, some (29/2), some 100⟩ : EnrichedRow)) ∈
        (identify_breakout_days (fetch_and_prepare_data sampleObs) 200 2).2.rows ∧
      19 ≤ (19, (⟨19, 2, 100, some (29/2), some 100⟩ : EnrichedRow)).1) := by
  have h1 : (0, (⟨0, 10, 50, some 10, some 5⟩ : EnrichedRow)) ∈
      (identify_breakout_days sampleData 100 0).2.rows := by
    rw [mem_breakout_rows]
    exact ⟨rfl, ⟨10, rfl, by norm_num⟩, ⟨5, rfl, by norm_num⟩⟩
  have h2 : (19, (⟨19, 2, 100, some (29/2), some 100⟩ : EnrichedRow)) ∈
      (identify_breakout_days (fetch_and_prepare_data sampleObs) 200 2).2.rows := by
    rw [mem_breakout_rows]
    refine ⟨?_, ⟨29/2, rfl, by norm_num⟩, ⟨100, rfl, by norm_num⟩⟩
    rw [fetch_getElem? sampleObs 19 (by norm_num [sampleObs])]
    have havg : rollingMeanVolume sampleObs 19 = some (29/2) := by
      norm_num [rollingMeanVolume, sampleObs]
    have hpct : pctChange sampleObs 19 = some 100 := by
      norm_num [pctChange, sampleObs]
    rw [havg, hpct]
    rfl
  exact ⟨⟨h1, C5_never_selects_undefined.1 sampleData 100 0 _ h1⟩,
         ⟨h2, C5_never_selects_undefined.2 sampleObs 200 2 _ h2⟩⟩

/-- C3: the rolling-average-volume column at row `t` is the mean of exactly
the 20 volumes at indices `t-19 .. t` when `t ≥ 19` (the window has exactly
20 elements), is undefined for `t < 19`, and hence is undefined at every row
of a series shorter than 20. -/
theorem C3_rolling_avg_volume (sd : List Observation) (t : ℕ)
    (h : t < sd.length) :
    (19 ≤ t →
        ((fetch_and_prepare_data sd).getD t default).avg_volume_20d =
          some ((((List.range 20).map fun k =>
              (sd.getD (t - 19 + k) default).volume).sum) / 20) ∧
        ((sd.drop (t - 19)).take 20).length = 20) ∧
    (t < 19 →
        ((fetch_and_prepare_data sd).getD t default).avg_volume_20d = none) ∧
    (sd.length < 20 →
        ((fetch_and_prepare_data sd).getD t default).avg_volume_20d = none) := by
  have hrow : ((fetch_and_prepare_data sd).getD t default).avg_volume_20d =
      rollingMeanVolume sd t := by
    rw [List.getD_eq_getElem?_getD, fetch_getElem? sd t h]
    rfl
  refine ⟨?_, ?_, ?_⟩
  · intro h19
    have hwin : t - 19 + 20 ≤ sd.length := by omega
    constructor
    · rw [hrow]
      unfold rollingMeanVolume
      rw [if_pos h19, take_drop_eq_range_getD sd (t - 19) 20 hwin, List.map_map]
      rfl
    · rw [List.length_take, List.length_drop]
      omega
  · intro h19
    rw [hrow]
    unfold rollingMeanVolume
    rw [if_neg (by omega)]
  · intro hlen
    rw [hrow]
    unfold rollingMeanVolume
    rw [if_neg (by omega)]

/-- C3 witness: at row 19 of the 20-day sample series the rolling average is
the mean of all 20 volumes. -/
theorem C3_rolling_avg_volume_witness :
    19 < sampleObs.length ∧
    ((19 ≤ 19 →
        ((fetch_and_prepare_data sampleObs).getD 19 default).avg_volume_20d =
          some ((((List.range 20).map fun k =>
              (sampleObs.getD (19 - 19 + k) default).volume).sum) / 20) ∧
        ((sampleObs.drop (19 - 19)).take 20).length = 20) ∧
     (19 < 19 →
        ((fetch_and_prepare_data sampleObs).getD 19 default).avg_volume_20d =
          none) ∧
     (sampleObs.length < 20 →
        ((fetch_and_prepare_data sampleObs).getD 19 default).avg_volume_20d =
          none)) :=
  ⟨by decide, C3_rolling_avg_volume sampleObs 19 (by decide)⟩

/-- C4: the daily-percent-change column is undefined at row 0, and at every
row `t ≥ 1` the stored value equals `(close[t] / close[t-1] - 1) * 100`
recomputed from the close column of the prepared series (round-trip). -/
theorem C4_daily_pct_change_round_trip (sd : List Observation) (t : ℕ)
    (h : t < sd.length) :
    (t = 0 →
        ((fetch_and_prepare_data sd).getD t default).daily_pct_change = none) ∧
    (1 ≤ t →
        ((fetch_and_prepare_data sd).getD t default).daily_pct_change =
          some ((((fetch_and_prepare_data sd).getD t default).close
                  / ((fetch_and_prepare_data sd).getD (t - 1) default).close
                  - 1) * 100)) := by
  have hrowt := fetch_getElem? sd t h
  constructor
  · intro h0
    subst h0
    rw [List.getD_eq_getElem?_getD, hrowt]
    show pctChange sd 0 = none
    unfold pctChange
    rw [if_neg (by omega)]
  · intro h1
    have h' : t - 1 < sd.length := by omega
    have hrow1 := fetch_getElem? sd (t - 1) h'
    rw [List.getD_eq_getElem?_getD (fetch_and_prepare_data sd) t default, hrowt,
      List.getD_eq_getElem?_getD (fetch_and_prepare_data sd) (t - 1) default,
      hrow1]
    show pctChange sd t =
      some (((sd.getD t default).close / (sd.getD (t - 1) default).close - 1)
              * 100)
    unfold pctChange
    rw [if_pos h1]

/-- C4 witness: on a two-day raw series with closes 10 then 12, row 1 stores
`(12/10 - 1) * 100` and the round-trip from the prepared closes holds. -/
theorem C4_daily_pct_change_round_trip_witness :
    1 < sampleObs2.length ∧
    ((1 = 0 →
        ((fetch_and_prepare_data sampleObs2).getD 1 default).daily_pct_change =
          none) ∧
     (1 ≤ 1 →
        ((fetch_and_prepare_data sampleObs2).getD 1 default).daily_pct_change =
          some ((((fetch_and_prepare_data sampleObs2).getD 1 default).close
                  / ((fetch_and_prepare_data sampleObs2).getD (1 - 1) default).close
                  - 1) * 100))) :=
  ⟨by decide, C4_daily_pct_change_round_trip sampleObs2 1 (by decide)⟩

/-- C1: for every enriched series, breakout subset genuinely drawn from it,
and positive holding period, the measurer emits exactly one record per input
breakout, in the same order; the holding return of the breakout at original
index `i` is `(close[i + hp] - close[i]) / close[i] * 100` by absolute-index
lookup into the full series when `i + hp` is strictly less than the series
length, and is undefined (the record kept, not dropped) otherwise. -/
theorem C1_measure_holding_returns (data : List EnrichedRow) (b : BreakoutFrame)
    (hp : ℕ) (_hpos : 0 < hp)
    (hsub : ∀ p ∈ b.rows, p.1 < data.length ∧ data.getD p.1 default = p.2) :
    (calculate_holding_returns data b hp).2.rows = b.rows ∧
    (calculate_holding_returns data b hp).2.holding_return_col =
      some (b.rows.map fun p =>
        if p.1 + hp < data.length then
          some (((data.getD (p.1 + hp) default).close
                  - (data.getD p.1 default).close)
                / (data.getD p.1 default).close * 100)
        else none) := by
  refine ⟨rfl, ?_⟩
  show some _ = some _
  congr 1
  apply List.map_congr_left
  intro p hpmem
  rw [← (hsub p hpmem).2]

/-- C1 witness: on the three-row sample series with holding period 2, the
breakout at index 0 gets return `(12 - 10) / 10 * 100` and the breakout at
index 2 (whose exit index 4 is past the end) gets an undefined return. -/
theorem C1_measure_holding_returns_witness :
    0 < 2 ∧
    (∀ p ∈ sampleFrame.rows,
        p.1 < sampleData.length ∧ sampleData.getD p.1 default = p.2) ∧
    ((calculate_holding_returns sampleData sampleFrame 2).2.rows =
        sampleFrame.rows ∧
     (calculate_holding_returns sampleData sampleFrame 2).2.holding_return_col =
       some (sampleFrame.rows.map fun p =>
         if p.1 + 2 < sampleData.length then
           some (((sampleData.getD (p.1 + 2) default).close
                   - (sampleData.getD p.1 default).close)
                 / (sampleData.getD p.1 default).close * 100)
         else none)) := by
  have hsub : ∀ p ∈ sampleFrame.rows,
      p.1 < sampleData.length ∧ sampleData.getD p.1 default = p.2 := by
    intro p hpmem
    fin_cases hpmem <;> exact ⟨by norm_num [sampleData], rfl⟩
  exact ⟨by norm_num, hsub,
    C1_measure_holding_returns sampleData sampleFrame 2 (by norm_num) hsub⟩

/-- C7 counterexample: the core performs no parameter validation.  With the
non-positive volume threshold −100 the classifier still computes and selects
a breakout, and with the non-positive holding period 0 the measurer still
computes (0%) holding returns; no `InvalidParameter` failure exists anywhere
in the core. -/
theorem C7_counterexample :
    (0, (⟨0, 10, 50, some 10, some 5⟩ : EnrichedRow)) ∈
      (identify_breakout_days sampleData (-100) (-1)).2.rows ∧
    (calculate_holding_returns sampleData sampleFrame 0).2.holding_return_col =
      some [some 0, some 0] := by
  constructor
  · rw [mem_breakout_rows]
    exact ⟨rfl, ⟨10, rfl, by norm_num⟩, ⟨5, rfl, by norm_num⟩⟩
  · norm_num [calculate_holding_returns, sampleFrame, sampleData]

/-- C7 amended: the core never signals a parameter failure; it computes
against non-positive parameters as given.  With volume threshold 0 the
classifier degenerates to selecting every row with a defined rolling average,
positive volume, and a passing price change; with holding period 0 the
measurer attaches a 0% return to every genuine breakout instead of failing. -/
theorem C7_amended_no_parameter_check :
    (∀ (data : List EnrichedRow) (pth : ℚ) (t : ℕ) (row : EnrichedRow),
        (t, row) ∈ (identify_breakout_days data 0 pth).2.rows ↔
          data[t]? = some row ∧
          (∃ a, row.avg_volume_20d = some a) ∧ 0 < row.volume ∧
          (∃ d, row.daily_pct_change = some d ∧ pth < d)) ∧
    (∀ (data : List EnrichedRow) (b : BreakoutFrame),
        (∀ p ∈ b.rows, p.1 < data.length ∧ data.getD p.1 default = p.2) →
        (calculate_holding_returns data b 0).2.holding_return_col =
          some (b.rows.map fun _ => some 0)) := by
  constructor
  · intro data pth t row
    rw [mem_breakout_rows]
    constructor
    · rintro ⟨hmem, ⟨a, ha, hlt⟩, hd⟩
      refine ⟨hmem, ⟨a, ha⟩, ?_, hd⟩
      simpa using hlt
    · rintro ⟨hmem, ⟨a, ha⟩, hvol, hd⟩
      exact ⟨hmem, ⟨a, ha, by simpa using hvol⟩, hd⟩
  · intro data b hsub
    show some _ = some _
    congr 1
    apply List.map_congr_left
    intro p hpmem
    have hlt : p.1 + 0 < data.length := by
      have := (hsub p hpmem).1
      omega
    rw [if_pos hlt, ← (hsub p hpmem).2]
    simp

/-- C7 amended witness: concrete instances of both degenerate behaviours on
the sample series and sample breakout frame. -/
theorem C7_amended_no_parameter_check_witness :
    ((0, (⟨0, 10, 50, some 10, some 5⟩ : EnrichedRow)) ∈
        (identify_breakout_days sampleData 0 0).2.rows ↔
      sampleData[0]? = some (⟨0, 10, 50, some 10, some 5⟩ : EnrichedRow) ∧
      (∃ a, (⟨0, 10, 50, some 10, some 5⟩ : EnrichedRow).avg_volume_20d =
          some a) ∧
      0 < (⟨0, 10, 50, some 10, some 5⟩ : EnrichedRow).volume ∧
      (∃ d, (⟨0, 10, 50, some 10, some 5⟩ : EnrichedRow).daily_pct_change =
          some d ∧ 0 < d)) ∧
    (∀ p ∈ sampleFrame.rows,
        p.1 < sampleData.length ∧ sampleData.getD p.1 default = p.2) ∧
    (calculate_holding_returns sampleData sampleFrame 0).2.holding_return_col =
      some (sampleFrame.rows.map fun _ => some 0) := by
  have hsub : ∀ p ∈ sampleFrame.rows,
      p.1 < sampleData.length ∧ sampleData.getD p.1 default = p.2 := by
    intro p hpmem
    fin_cases hpmem <;> exact ⟨by norm_num [sampleData], rfl⟩
  exact ⟨C7_amended_no_parameter_check.1 sampleData 0 0 _, hsub,
    C7_amended_no_parameter_check.2 sampleData sampleFrame hsub⟩

end BreakoutAnalyzer
